import Mathlib

/-!
Verification of the price-aggregation core of the `scraper` repository.

The embedding follows the source:
* the Supabase edge function `serve` (Deno handler that validates the request,
  calls the external scraper, ensures a `cards` row, bulk-inserts
  `price_entries`, and upserts a `card_prices` summary row);
* the SQL function `calculate_card_price_summary` from
  `create_rpc_function.sql` (AVG / MAX / COUNT over `price_entries`);
* the `cards_with_prices` read view (LEFT JOIN of `cards` and `card_prices`
  with `COALESCE(average, 0)` and `COALESCE(count, 1)`), and the dashboard's
  price-rendering guard `card.latest_price && card.latest_price > 0`.

Prices are modelled as `ℚ` (SQL `NUMERIC` is exact decimal arithmetic);
timestamps as `Nat`.  Store-generated `created_at` columns and the response
`error` detail string are omitted: no claim mentions them.  Failures of the
external collaborators (JSON parse, missing service key, scraper HTTP error,
individual Supabase call errors including the unique-constraint conflict on
card insertion) are explicit inputs, since each is a distinct `throw` site in
the handler.
-/

/-- One row of the `cards` table: unique id and unique display name. -/
structure Card where
  id : Nat
  name : String
deriving Repr, DecidableEq

/-- One row of the `price_entries` table (an Observation). -/
structure PriceEntry where
  card_id : Nat
  price : ℚ
  timestamp : Nat
deriving Repr, DecidableEq

/-- One row of the `card_prices` summary table.  `price_count` is the
nullable column that the edge function never writes (the view defaults it
to 1). -/
structure CardPrice where
  card_id : Nat
  average_price : ℚ
  last_seen : Nat
  price_count : Option Nat
deriving Repr, DecidableEq

/-- The relational store: the three tables plus the id sequence. -/
structure DB where
  cards : List Card
  price_entries : List PriceEntry
  card_prices : List CardPrice
  nextId : Nat
deriving Repr, DecidableEq

/-- Result row of the SQL function `calculate_card_price_summary`:
`AVG(price)`, `MAX(timestamp)`, `COUNT(*)` over one card's entries
(SQL `AVG`/`MAX` are `NULL` on the empty set). -/
structure SummaryRow where
  average_price : Option ℚ
  last_seen : Option Nat
  price_count : Nat
deriving Repr, DecidableEq

/-- `calculate_card_price_summary(card_uuid)` from `create_rpc_function.sql`:
the aggregate over exactly the entries owned by the card. -/
def calculate_card_price_summary (entries : List PriceEntry) (card_uuid : Nat) :
    SummaryRow :=
  let es := entries.filter (fun pe => pe.card_id == card_uuid)
  { average_price :=
      if es.length = 0 then none
      else some ((es.map (fun pe => pe.price)).sum / (es.length : ℚ))
    last_seen :=
      match es.map (fun pe => pe.timestamp) with
      | [] => none
      | t :: ts => some (ts.foldl max t)
    price_count := es.length }

/-- The JSON field `query` of a request body as the handler sees it:
absent (or another JS-falsy value), present but not a string, or a string. -/
inductive BodyField
  | missing
  | notString
  | strVal (s : String)
deriving Repr, DecidableEq

/-- Parsed request body (the handler only reads `body.query`). -/
structure RequestBody where
  query : BodyField
deriving Repr, DecidableEq

/-- An incoming HTTP request: method, and `none` when `req.json()` throws. -/
structure Request where
  method : String
  body : Option RequestBody
deriving Repr, DecidableEq

/-- Payload of a successful scraper fetch; `prices := none` models a response
whose `prices` field is absent or not an array. -/
structure ScraperData where
  prices : Option (List ℚ)
  average : ℚ
  timestamp : Nat
deriving Repr, DecidableEq

/-- Outcome of the external scraper call: `failure` covers a network error,
a non-ok HTTP status, or an unparseable payload (each makes the handler
throw into its catch-all). -/
inductive ScraperResult
  | failure
  | ok (data : ScraperData)
deriving Repr, DecidableEq

/-- Environment flags for the fallible collaborator calls inside the `try`
block; `true` on a `*Fails` flag means that Supabase call returns an error
and the handler throws. -/
structure StoreEnv where
  hasServiceKey : Bool
  cardCheckFails : Bool
  cardInsertConflict : Bool
  priceInsertFails : Bool
  cardPriceCheckFails : Bool
  cardPriceWriteFails : Bool
deriving Repr, DecidableEq

/-- The `data` payload of a success response. -/
structure RespData where
  cardInserted : Bool
  priceEntriesInserted : Nat
  cardPriceUpdated : Bool
deriving Repr, DecidableEq

/-- A response body: the plain-text `'ok'` of the CORS preflight branch, or
a JSON object with a `status`, `message`, and optional `data`. -/
inductive RespBody
  | plain (s : String)
  | json (status : String) (message : String) (data : Option RespData)
deriving Repr, DecidableEq

/-- An HTTP response: status code and body. -/
structure Response where
  httpStatus : Nat
  body : RespBody
deriving Repr, DecidableEq

/-- The `status` field of a response body, if it is a JSON status object. -/
def respStatus : RespBody → Option String
  | .plain _ => none
  | .json s _ _ => some s

def internalMsg : String := "Internal server error"

def methodMsg : String := "Method not allowed. Only POST requests are supported."

def invalidBodyMsg : String :=
  "Invalid request body. \"query\" field is required and must be a string."

def noPricesMsg : String := "No prices found in scraper response"

def successMsg : String := "Data processed successfully"

/-- An error response as the handler builds them. -/
def errResp (code : Nat) (msg : String) : Response :=
  ⟨code, .json "error" msg none⟩

/-- The guard `!body.query || typeof body.query !== 'string'`: yields the
query string when it passes (the empty string is JS-falsy and is rejected
by `!body.query`). -/
def queryValid : BodyField → Option String
  | .strVal s => if s = "" then none else some s
  | _ => none

/-- The `card_prices` upsert shape shared by the handler and the recompute
path: if a row for the card exists, overwrite its `average_price` and
`last_seen` (leaving `price_count` as is, since the update statement never
mentions it); otherwise insert a fresh row (with `price_count` null). -/
def upsertCardPrice (l : List CardPrice) (cid : Nat) (a : ℚ) (t : Nat) :
    List CardPrice :=
  match l.find? (fun cp => cp.card_id == cid) with
  | some _ =>
      l.map (fun cp =>
        if cp.card_id = cid then
          { cp with average_price := a, last_seen := t }
        else cp)
  | none => l ++ [⟨cid, a, t, none⟩]

/-- Steps of the handler after the price entries exist: check/upsert the
`card_prices` row and build the success response.  The handler writes the
provider-supplied batch `average` and batch `timestamp`, not an aggregate
over `price_entries`. -/
def ingestSummary (env : StoreEnv) (data : ScraperData) (prices : List ℚ)
    (cid : Nat) (cardInserted : Bool) (db : DB) : Response × DB :=
  if env.cardPriceCheckFails then (errResp 500 internalMsg, db)
  else if env.cardPriceWriteFails then (errResp 500 internalMsg, db)
  else
    (⟨200, .json "success" successMsg (some ⟨cardInserted, prices.length, true⟩)⟩,
     { db with
        card_prices := upsertCardPrice db.card_prices cid data.average data.timestamp })

/-- Bulk insert of the batch into `price_entries`: every price of the batch,
each stamped with the single batch timestamp, then the summary step.  The
insert is one Supabase call, so on its failure no entry is added (but the
card insert of the enclosing request has already been committed). -/
def ingestEntries (env : StoreEnv) (data : ScraperData) (prices : List ℚ)
    (cid : Nat) (cardInserted : Bool) (db : DB) : Response × DB :=
  if env.priceInsertFails then (errResp 500 internalMsg, db)
  else
    ingestSummary env data prices cid cardInserted
      { db with
          price_entries :=
            db.price_entries ++ prices.map (fun p => ⟨cid, p, data.timestamp⟩) }

/-- The card-existence check and insert: look up by exact name; if absent,
insert.  A concurrent duplicate insert makes the insert call error, and the
handler throws (there is no re-fetch of the winning row). -/
def ensureCardAndIngest (env : StoreEnv) (data : ScraperData)
    (prices : List ℚ) (q : String) (db : DB) : Response × DB :=
  if env.cardCheckFails then (errResp 500 internalMsg, db)
  else
    match db.cards.find? (fun c => c.name == q) with
    | some c => ingestEntries env data prices c.id false db
    | none =>
        if env.cardInsertConflict then (errResp 500 internalMsg, db)
        else
          ingestEntries env data prices db.nextId true
            { db with
                cards := db.cards ++ [⟨db.nextId, q⟩],
                nextId := db.nextId + 1 }

/-- The edge function handler from `src/unnamed/part_000`: CORS preflight,
method check, body parse, query validation, service-key check, scraper call,
empty-prices branch, then card / price-entries / card-prices processing,
with every `throw` caught and turned into a 500 error response. -/
def serve (env : StoreEnv) (scraper : ScraperResult) (req : Request)
    (db : DB) : Response × DB :=
  if req.method = "OPTIONS" then (⟨200, .plain "ok"⟩, db)
  else if req.method ≠ "POST" then (errResp 405 methodMsg, db)
  else
    match req.body with
    | none => (errResp 500 internalMsg, db)
    | some body =>
        match queryValid body.query with
        | none => (errResp 400 invalidBodyMsg, db)
        | some q =>
            if env.hasServiceKey = false then (errResp 500 internalMsg, db)
            else
              match scraper with
              | .failure => (errResp 500 internalMsg, db)
              | .ok data =>
                  match data.prices with
                  | none => (errResp 400 noPricesMsg, db)
                  | some prices =>
                      if prices.isEmpty then (errResp 400 noPricesMsg, db)
                      else ensureCardAndIngest env data prices q db

/-- `recompute(item_id)` as the spec's Aggregator names it: the RPC aggregate
over the card's entries, upserted into `card_prices` with the same upsert
shape the handler uses (write only when the card has entries, since
`average_price` is NOT NULL). -/
def recompute (db : DB) (cid : Nat) : DB :=
  match (calculate_card_price_summary db.price_entries cid).average_price,
        (calculate_card_price_summary db.price_entries cid).last_seen with
  | some a, some t =>
      { db with card_prices := upsertCardPrice db.card_prices cid a t }
  | _, _ => db

/-- One row of the `cards_with_prices` read view. -/
structure ViewRow where
  id : Nat
  name : String
  latest_price : ℚ
  last_price_update : Option Nat
  price_count : Nat
deriving Repr, DecidableEq

/-- The view row for one card: LEFT JOIN on `card_prices` with
`COALESCE(average, 0)` as `latest_price` and `COALESCE(price_count, 1)`. -/
def viewRowFor (db : DB) (c : Card) : ViewRow :=
  match db.card_prices.find? (fun cp => cp.card_id == c.id) with
  | some cp => ⟨c.id, c.name, cp.average_price, some cp.last_seen, cp.price_count.getD 1⟩
  | none => ⟨c.id, c.name, 0, none, 1⟩

/-- The `cards_with_prices` read view: one row per card. -/
def cards_with_prices (db : DB) : List ViewRow :=
  db.cards.map (viewRowFor db)

/-- The dashboard guard `card.latest_price && card.latest_price > 0`
(JS: `0` is falsy, then the positivity check): `true` iff the price block
is rendered, `false` shows "No Price Data". -/
def latestPriceGuard (p : ℚ) : Bool :=
  if p = 0 then false else decide (0 < p)

/-! Concrete scenario inputs (spec §8, Scenarios A and C). -/

/-- The empty store. -/
def db0 : DB := ⟨[], [], [], 0⟩

/-- Environment where every collaborator call succeeds. -/
def envOK : StoreEnv := ⟨true, false, false, false, false, false⟩

/-- A well-formed POST for item "Foo". -/
def reqFoo : Request := ⟨"POST", some ⟨BodyField.strVal "Foo"⟩⟩

/-- Scenario A batch: prices 100, 120, 140, provider average 120, captured
at time 3. -/
def scrA : ScraperResult := .ok ⟨some [100, 120, 140], 120, 3⟩

/-- Scenario C batch: single price 50, provider average 50, captured at
time 4. -/
def scrC : ScraperResult := .ok ⟨some [50], 50, 4⟩

/-- Store after ingesting Scenario A into the empty store. -/
def dbA : DB := (serve envOK scrA reqFoo db0).2

/-- Store after ingesting Scenario C on top of Scenario A. -/
def dbC : DB := (serve envOK scrC reqFoo dbA).2

/-- A successful scraper fetch that found no prices. -/
def scrEmpty : ScraperResult := .ok ⟨some [], 0, 5⟩

/-- A batch containing a non-positive price (-5), provider average 5/2,
captured at time 7. -/
def scrNeg : ScraperResult := .ok ⟨some [-5, 9], 2, 7⟩

/-- Environment where the card insert hits the uniqueness constraint
(a concurrent creation of the same name won the race). -/
def envConflict : StoreEnv := ⟨true, false, true, false, false, false⟩

/-- A store holding one card "Bar" that owns no observations and has no
summary row. -/
def dbBar : DB := ⟨[⟨7, "Bar"⟩], [], [], 8⟩

/-- A CORS preflight request. -/
def reqPreflight : Request := ⟨"OPTIONS", none⟩

/-! Helper lemmas. -/

theorem dbA_eval : dbA =
    ⟨[⟨0, "Foo"⟩],
     [⟨0, 100, 3⟩, ⟨0, 120, 3⟩, ⟨0, 140, 3⟩],
     [⟨0, 120, 3, none⟩], 1⟩ := by decide

theorem dbC_entries_eval : dbC.price_entries =
    [⟨0, 100, 3⟩, ⟨0, 120, 3⟩, ⟨0, 140, 3⟩, ⟨0, 50, 4⟩] := by decide

theorem summaryC_eval : calculate_card_price_summary dbC.price_entries 0 =
    ⟨some (205 / 2), some 4, 4⟩ := by
  rw [dbC_entries_eval]
  simp [calculate_card_price_summary, List.filter]
  norm_num

theorem find?_map_of_pred_preserved {α : Type} {f : α → α} {p : α → Bool}
    (hf : ∀ x, p (f x) = p x) (l : List α) (h : (l.find? p).isSome) :
    ((l.map f).find? p).isSome := by
  induction l with
  | nil => simp [List.find?] at h
  | cons x xs ih =>
    by_cases hx : p x = true
    · have hpf : p (f x) = true := by rw [hf]; exact hx
      simp only [List.map_cons, List.find?_cons_of_pos _ hpf, Option.isSome_some]
    · have hpf : ¬ p (f x) = true := by rw [hf]; exact hx
      rw [List.find?_cons_of_neg _ hx] at h
      simp only [List.map_cons]
      rw [List.find?_cons_of_neg _ hpf]
      exact ih h

theorem map_idem_of_pointwise {α : Type} {f : α → α}
    (hf : ∀ x, f (f x) = f x) (l : List α) :
    (l.map f).map f = l.map f := by
  induction l with
  | nil => rfl
  | cons x xs ih => simp only [List.map_cons, hf, ih]

theorem find?_append_of_none {α : Type} {p : α → Bool} {l₁ : List α}
    (h : l₁.find? p = none) (l₂ : List α) :
    (l₁ ++ l₂).find? p = l₂.find? p := by
  induction l₁ with
  | nil => rfl
  | cons x xs ih =>
    by_cases hx : p x = true
    · rw [List.find?_cons_of_pos _ hx] at h; exact absurd h (by simp)
    · rw [List.find?_cons_of_neg _ hx] at h
      rw [List.cons_append, List.find?_cons_of_neg _ hx]
      exact ih h

theorem map_eq_self_of_no_match {α : Type} {p : α → Bool} {f : α → α}
    {l : List α} (h : l.find? p = none) (hf : ∀ x, p x = false → f x = x) :
    l.map f = l := by
  induction l with
  | nil => rfl
  | cons x xs ih =>
    by_cases hx : p x = true
    · rw [List.find?_cons_of_pos _ hx] at h; exact absurd h (by simp)
    · rw [List.find?_cons_of_neg _ hx] at h
      simp only [List.map_cons, hf x (by simpa using hx), ih h]

theorem upsertCardPrice_idem (l : List CardPrice) (cid : Nat) (a : ℚ) (t : Nat) :
    upsertCardPrice (upsertCardPrice l cid a t) cid a t =
      upsertCardPrice l cid a t := by
  have hpres : ∀ cp : CardPrice,
      (((if cp.card_id = cid then
          { cp with average_price := a, last_seen := t } else cp).card_id == cid)
        = (cp.card_id == cid)) := by
    intro cp; by_cases hc : cp.card_id = cid <;> simp [hc]
  have hidem : ∀ cp : CardPrice,
      ((fun cp => if cp.card_id = cid then
          { cp with average_price := a, last_seen := t } else cp)
        ((fun cp => if cp.card_id = cid then
          { cp with average_price := a, last_seen := t } else cp) cp))
      = (fun cp => if cp.card_id = cid then
          { cp with average_price := a, last_seen := t } else cp) cp := by
    intro cp; by_cases hc : cp.card_id = cid <;> simp [hc]
  unfold upsertCardPrice
  cases hfind : l.find? (fun cp => cp.card_id == cid) with
  | some y =>
    have hsome : (((l.map (fun cp => if cp.card_id = cid then
        { cp with average_price := a, last_seen := t } else cp)).find?
          (fun cp => cp.card_id == cid)).isSome) :=
      find?_map_of_pred_preserved hpres l (by simp [hfind])
    obtain ⟨z, hz⟩ := Option.isSome_iff_exists.mp hsome
    rw [hz]
    exact map_idem_of_pointwise hidem l
  | none =>
    have hx : ((⟨cid, a, t, none⟩ : CardPrice).card_id == cid) = true := by simp
    have hfind2 : ((l ++ [(⟨cid, a, t, none⟩ : CardPrice)]).find?
        (fun cp => cp.card_id == cid)) = some ⟨cid, a, t, none⟩ := by
      rw [find?_append_of_none hfind]
      simp [List.find?]
    rw [hfind2, List.map_append,
      map_eq_self_of_no_match hfind
        (by intro x hxf; simp only [beq_eq_false_iff_ne, ne_eq] at hxf; simp [hxf])]
    simp

theorem recompute_price_entries (db : DB) (cid : Nat) :
    (recompute db cid).price_entries = db.price_entries := by
  unfold recompute
  cases (calculate_card_price_summary db.price_entries cid).average_price <;>
    cases (calculate_card_price_summary db.price_entries cid).last_seen <;> rfl

/-! Claim theorems. -/

/-- C1: the claim says that after every completed ingestion the stored
Summary equals the aggregate over ALL of the item's observations, never a
value computed from only the latest batch.  The code contradicts this (and
its own BACKEND_FIX_GUIDE): after ingesting batch [50] on top of history
[100, 120, 140], the stored `card_prices` row carries the latest batch's
provider average 50 and no count, while the repository's own
`calculate_card_price_summary` aggregate over all four observations is
average 205/2 = 102.5 with count 4. -/
theorem c1_stored_summary_ignores_history :
    dbC.card_prices = [⟨0, 50, 4, none⟩] ∧
    calculate_card_price_summary dbC.price_entries 0 =
      ⟨some (205 / 2), some 4, 4⟩ ∧
    (50 : ℚ) ≠ 205 / 2 := by
  refine ⟨by decide, summaryC_eval, by norm_num⟩

/-- C9: `recompute(item_id)` run twice in a row with no intervening
ingestion is idempotent — the store (hence every Summary field) after the
second call equals the store after the first. -/
theorem c9_recompute_idempotent (db : DB) (cid : Nat) :
    recompute (recompute db cid) cid = recompute db cid := by
  rcases hA : (calculate_card_price_summary db.price_entries cid).average_price
    with _ | a
  · have h1 : recompute db cid = db := by
      unfold recompute; rw [hA]
    rw [h1, h1]
  · rcases hT : (calculate_card_price_summary db.price_entries cid).last_seen
      with _ | t
    · have h1 : recompute db cid = db := by
        unfold recompute; rw [hA, hT]
      rw [h1, h1]
    · have h1 : recompute db cid =
          { db with card_prices := upsertCardPrice db.card_prices cid a t } := by
        unfold recompute; rw [hA, hT]
      rw [h1]
      unfold recompute
      dsimp only
      rw [hA, hT]
      show ({ db with card_prices :=
          upsertCardPrice (upsertCardPrice db.card_prices cid a t) cid a t } : DB)
        = { db with card_prices := upsertCardPrice db.card_prices cid a t }
      rw [upsertCardPrice_idem]

/-- C2 counterexample: when the provider succeeds but returns an empty price
list, the handler does NOT return a successful response — it returns HTTP
400 with `status: 'error'` ("No prices found in scraper response"), so the
claim's "successful (non-error) response carrying zero results" is false. -/
theorem c2_counterexample :
    respStatus (serve envOK scrEmpty reqFoo db0).1.body = some "error" ∧
    (serve envOK scrEmpty reqFoo db0).1.httpStatus = 400 := by decide

/-- C2 amended: a request whose provider call succeeds with an empty price
list is answered with the status-'error' HTTP 400 response "No prices found
in scraper response"; no Observation row is written, the summary upsert is
never reached, and the whole store (hence any existing Summary) is left
unchanged. -/
theorem c2_empty_prices_no_write (env : StoreEnv) (db : DB) (q : String)
    (data : ScraperData) (hk : env.hasServiceKey = true) (hq : q ≠ "")
    (hp : data.prices = some []) :
    serve env (.ok data) ⟨"POST", some ⟨.strVal q⟩⟩ db =
      (errResp 400 noPricesMsg, db) := by
  unfold serve
  simp [queryValid, hq, hk, hp]

/-- C2 witness: the amended theorem applied at the concrete empty batch. -/
theorem c2_empty_prices_no_write_witness :
    envOK.hasServiceKey = true ∧ ("Foo" : String) ≠ "" ∧
    (ScraperData.mk (some []) 0 5).prices = some [] ∧
    serve envOK (.ok ⟨some [], 0, 5⟩) ⟨"POST", some ⟨.strVal "Foo"⟩⟩ db0 =
      (errResp 400 noPricesMsg, db0) :=
  ⟨rfl, by decide, rfl,
   c2_empty_prices_no_write envOK db0 "Foo" ⟨some [], 0, 5⟩ rfl (by decide) rfl⟩

/-- C3 counterexample: a batch containing the non-positive price -5 is not
rejected — the handler reports success, counts both entries as inserted,
both rows (including the one with price -5) land in `price_entries`, and
the Summary row is written with the provider's batch average 2 (so it is
not left unchanged either). -/
theorem c3_counterexample :
    (serve envOK scrNeg reqFoo db0).1 =
      ⟨200, .json "success" successMsg (some ⟨true, 2, true⟩)⟩ ∧
    (serve envOK scrNeg reqFoo db0).2.price_entries =
      [⟨0, -5, 7⟩, ⟨0, 9, 7⟩] ∧
    (serve envOK scrNeg reqFoo db0).2.card_prices =
      [⟨0, 2, 7, none⟩] := by decide

/-- C3 amended: the handler performs no price validation at all — every
batch that reaches the insert step (even one containing prices ≤ 0) is
inserted in full, the success response counts the whole batch, and the
Summary is still overwritten with the provider's batch average and batch
timestamp; no ValidationError exists on this path. -/
theorem c3_no_price_validation (db : DB) (q : String) (data : ScraperData)
    (ps : List ℚ) (hq : q ≠ "") (hp : data.prices = some ps) (hne : ps ≠ [])
    (hbad : ∃ p ∈ ps, p ≤ 0) :
    ∃ cid inserted,
      (serve envOK (.ok data) ⟨"POST", some ⟨.strVal q⟩⟩ db).1 =
        ⟨200, .json "success" successMsg (some ⟨inserted, ps.length, true⟩)⟩ ∧
      (serve envOK (.ok data) ⟨"POST", some ⟨.strVal q⟩⟩ db).2.price_entries =
        db.price_entries ++ ps.map (fun p => ⟨cid, p, data.timestamp⟩) ∧
      (serve envOK (.ok data) ⟨"POST", some ⟨.strVal q⟩⟩ db).2.card_prices =
        upsertCardPrice db.card_prices cid data.average data.timestamp := by
  unfold serve ensureCardAndIngest ingestEntries ingestSummary
  simp only [envOK, queryValid, hp, hq]
  simp only [List.isEmpty_iff, hne]
  cases hfind : db.cards.find? (fun c => c.name == q) with
  | some c =>
      refine ⟨c.id, false, ?_⟩
      simp [hfind, hne]
  | none =>
      refine ⟨db.nextId, true, ?_⟩
      simp [hfind, hne]

/-- C3 witness: the amended theorem applied to the batch [-5, 9]. -/
theorem c3_no_price_validation_witness :
    ("Foo" : String) ≠ "" ∧ (∃ p ∈ [(-5 : ℚ), 9], p ≤ 0) ∧
    (∃ cid : Nat, ∃ inserted : Bool,
      (serve envOK (.ok ⟨some [-5, 9], 2, 7⟩)
          ⟨"POST", some ⟨.strVal "Foo"⟩⟩ db0).1 =
        ⟨200, .json "success" successMsg (some ⟨inserted, 2, true⟩)⟩ ∧
      (serve envOK (.ok ⟨some [-5, 9], 2, 7⟩)
          ⟨"POST", some ⟨.strVal "Foo"⟩⟩ db0).2.price_entries =
        db0.price_entries ++ [(-5 : ℚ), 9].map (fun p => ⟨cid, p, 7⟩) ∧
      (serve envOK (.ok ⟨some [-5, 9], 2, 7⟩)
          ⟨"POST", some ⟨.strVal "Foo"⟩⟩ db0).2.card_prices =
        upsertCardPrice db0.card_prices cid 2 7) :=
  ⟨by decide, ⟨-5, by norm_num⟩,
   c3_no_price_validation db0 "Foo" ⟨some [-5, 9], 2, 7⟩ [-5, 9]
     (by decide) rfl (by decide) ⟨-5, by norm_num⟩⟩

/-- C4 counterexample: after Scenario A, ingesting the single-price batch
[50] leaves the stored Summary average at 50 (the batch average), not the
claimed 112.5 — and even the intended all-history mean is 102.5, not
112.5. -/
theorem c4_counterexample :
    dbC.card_prices.map (fun cp => cp.average_price) = [50] ∧
    (50 : ℚ) ≠ 225 / 2 ∧
    (calculate_card_price_summary dbC.price_entries 0).average_price ≠
      some (225 / 2) := by
  refine ⟨by decide, by norm_num, ?_⟩
  rw [summaryC_eval]
  simp only [ne_eq, Option.some.injEq]
  norm_num

/-- C4 amended: ingesting [50.00] for "Foo" after Scenario A leaves the
stored Summary row at average 50 (the latest batch's provider-supplied
average) with last_seen t4 = max(t3, t4) and no stored count; the
all-history aggregate per the repository's own RPC would be average
205/2 = 102.5 (not 112.5) with count 4 and most-recent timestamp t4. -/
theorem c4_scenario_c_actual_values :
    dbC.card_prices = [⟨0, 50, 4, none⟩] ∧
    calculate_card_price_summary dbC.price_entries 0 =
      ⟨some (205 / 2), some 4, 4⟩ :=
  ⟨by decide, summaryC_eval⟩

/-- C5 counterexample: after ingesting Scenario A's batch for the new item
"Foo", the read view reports an observation count of 1 (the view's
COALESCE default, since ingestion never writes a count), not the claimed
3. -/
theorem c5_counterexample :
    (cards_with_prices dbA).map (fun r => r.price_count) = [1] ∧
    (1 : Nat) ≠ 3 := by decide

/-- C5 amended: ingesting prices [100, 120, 140] as one batch (provider
average 120, batch timestamp t3 = 3) for the previously unseen item "Foo"
creates the Item, and the read view shows average 120.00 and most-recent
timestamp t3 — but an observation count of 1, the view's COALESCE default,
because the ingestion path never records a count (all three observations
are stored, each stamped with the single batch timestamp). -/
theorem c5_scenario_a_view_row :
    cards_with_prices dbA = [⟨0, "Foo", 120, some 3, 1⟩] ∧
    dbA.price_entries = [⟨0, 100, 3⟩, ⟨0, 120, 3⟩, ⟨0, 140, 3⟩] := by decide

/-- C6 counterexample: the item "Bar" owns zero Observations, yet its read
view row carries the numeric value 0 as latest_price — the view COALESCEs
the absent average to 0, so the row is not null/absent as claimed. -/
theorem c6_counterexample :
    cards_with_prices dbBar = [⟨7, "Bar", 0, none, 1⟩] ∧
    (cards_with_prices dbBar).map (fun r => r.latest_price) = [0] := by decide

/-- C6 amended: an Item with no Summary row appears in the read view with
latest_price 0 (the view's COALESCE default) rather than a null average;
the dashboard rendering guard treats that 0 as falsy and shows "No Price
Data", so the fabricated 0 is never presented as a price. -/
theorem c6_zero_coalesced_never_rendered (db : DB) (c : Card)
    (h : db.card_prices.find? (fun cp => cp.card_id == c.id) = none) :
    viewRowFor db c = ⟨c.id, c.name, 0, none, 1⟩ ∧
    latestPriceGuard (viewRowFor db c).latest_price = false := by
  unfold viewRowFor
  rw [h]
  exact ⟨rfl, by simp [latestPriceGuard]⟩

/-- C6 witness: the amended theorem applied to the store holding only the
observation-less card "Bar". -/
theorem c6_zero_coalesced_never_rendered_witness :
    dbBar.card_prices.find? (fun cp => cp.card_id == (7 : Nat)) = none ∧
    (viewRowFor dbBar ⟨7, "Bar"⟩ = ⟨7, "Bar", 0, none, 1⟩ ∧
     latestPriceGuard (viewRowFor dbBar ⟨7, "Bar"⟩).latest_price = false) :=
  ⟨rfl, c6_zero_coalesced_never_rendered dbBar ⟨7, "Bar"⟩ rfl⟩

/-- C7 counterexample: when the card is absent from the handler's snapshot
and its insert then hits the uniqueness constraint (a concurrent creation
won), the handler does not re-fetch the winning row — it throws, and the
caller receives the status-'error' HTTP 500 response. -/
theorem c7_counterexample :
    serve envConflict scrA reqFoo db0 = (errResp 500 internalMsg, db0) ∧
    respStatus (serve envConflict scrA reqFoo db0).1.body = some "error" := by
  decide

/-- C7 amended: a duplicate-creation race on the card insert is surfaced to
the caller as a status-'error' HTTP 500 response — the handler performs no
insert-or-fetch retry — and none of this request's writes survive. -/
theorem c7_conflict_surfaced (env : StoreEnv) (db : DB) (q : String)
    (data : ScraperData) (ps : List ℚ)
    (hk : env.hasServiceKey = true) (hcc : env.cardCheckFails = false)
    (hcf : env.cardInsertConflict = true)
    (hq : q ≠ "") (hp : data.prices = some ps) (hne : ps ≠ [])
    (habs : db.cards.find? (fun c => c.name == q) = none) :
    serve env (.ok data) ⟨"POST", some ⟨.strVal q⟩⟩ db =
      (errResp 500 internalMsg, db) := by
  unfold serve ensureCardAndIngest
  simp [queryValid, hq, hk, hcc, hcf, hp, List.isEmpty_iff, hne, habs]

/-- C7 witness: the amended theorem applied to the conflict environment on
the empty store. -/
theorem c7_conflict_surfaced_witness :
    envConflict.hasServiceKey = true ∧ envConflict.cardCheckFails = false ∧
    envConflict.cardInsertConflict = true ∧
    db0.cards.find? (fun c => c.name == "Foo") = none ∧
    serve envConflict (.ok ⟨some [100, 120, 140], 120, 3⟩)
        ⟨"POST", some ⟨.strVal "Foo"⟩⟩ db0 =
      (errResp 500 internalMsg, db0) :=
  ⟨rfl, rfl, rfl, rfl,
   c7_conflict_surfaced envConflict db0 "Foo" ⟨some [100, 120, 140], 120, 3⟩
     [100, 120, 140] rfl rfl rfl (by decide) rfl (by decide) rfl⟩

/-- C8: a POST whose body parses but whose `query` field is missing or not
a string is rejected immediately with the status-'error' HTTP 400
validation response, and the store is completely untouched — no Item,
Observation, or Summary row is created or modified. -/
theorem c8_invalid_query_rejected_no_write (env : StoreEnv)
    (scraper : ScraperResult) (db : DB) (bf : BodyField)
    (h : bf = .missing ∨ bf = .notString) :
    serve env scraper ⟨"POST", some ⟨bf⟩⟩ db =
      (errResp 400 invalidBodyMsg, db) := by
  rcases h with h | h <;> subst h <;> simp [serve, queryValid]

/-- C8 witness: the theorem applied to a body whose `query` field is
absent. -/
theorem c8_invalid_query_rejected_no_write_witness :
    (BodyField.missing = BodyField.missing ∨
     BodyField.missing = BodyField.notString) ∧
    serve envOK scrA ⟨"POST", some ⟨BodyField.missing⟩⟩ db0 =
      (errResp 400 invalidBodyMsg, db0) :=
  ⟨Or.inl rfl,
   c8_invalid_query_rejected_no_write envOK scrA db0 BodyField.missing
     (Or.inl rfl)⟩

/-- C10 counterexample: an OPTIONS (CORS preflight) request is answered
with the plain-text body 'ok', which carries no status field at all — so
the claim that every incoming request gets a JSON response whose status is
'success' or 'error' is false. -/
theorem c10_counterexample :
    (serve envOK scrA reqPreflight db0).1.body = RespBody.plain "ok" ∧
    respStatus (serve envOK scrA reqPreflight db0).1.body = none := by decide

theorem ingestSummary_status (env : StoreEnv) (data : ScraperData)
    (prices : List ℚ) (cid : Nat) (ci : Bool) (db : DB) :
    respStatus (ingestSummary env data prices cid ci db).1.body = some "success" ∨
    respStatus (ingestSummary env data prices cid ci db).1.body = some "error" := by
  unfold ingestSummary
  split
  · exact Or.inr rfl
  · split
    · exact Or.inr rfl
    · exact Or.inl rfl

theorem ingestEntries_status (env : StoreEnv) (data : ScraperData)
    (prices : List ℚ) (cid : Nat) (ci : Bool) (db : DB) :
    respStatus (ingestEntries env data prices cid ci db).1.body = some "success" ∨
    respStatus (ingestEntries env data prices cid ci db).1.body = some "error" := by
  unfold ingestEntries
  split
  · exact Or.inr rfl
  · exact ingestSummary_status ..

theorem ensureCardAndIngest_status (env : StoreEnv) (data : ScraperData)
    (prices : List ℚ) (q : String) (db : DB) :
    respStatus (ensureCardAndIngest env data prices q db).1.body = some "success" ∨
    respStatus (ensureCardAndIngest env data prices q db).1.body = some "error" := by
  unfold ensureCardAndIngest
  split
  · exact Or.inr rfl
  · split
    · exact ingestEntries_status ..
    · split
      · exact Or.inr rfl
      · exact ingestEntries_status ..

theorem ingestSummary_success_flags (env : StoreEnv) (data : ScraperData)
    (prices : List ℚ) (cid : Nat) (ci : Bool) (db : DB)
    (hs : respStatus (ingestSummary env data prices cid ci db).1.body
      = some "success") :
    env.cardPriceCheckFails = false ∧ env.cardPriceWriteFails = false := by
  unfold ingestSummary at hs
  split at hs
  · exact absurd hs (by simp [respStatus, errResp])
  · split at hs
    · exact absurd hs (by simp [respStatus, errResp])
    · rename_i h1 h2
      exact ⟨by simpa using h1, by simpa using h2⟩

theorem ingestEntries_success_flags (env : StoreEnv) (data : ScraperData)
    (prices : List ℚ) (cid : Nat) (ci : Bool) (db : DB)
    (hs : respStatus (ingestEntries env data prices cid ci db).1.body
      = some "success") :
    env.priceInsertFails = false ∧ env.cardPriceCheckFails = false ∧
      env.cardPriceWriteFails = false := by
  unfold ingestEntries at hs
  split at hs
  · exact absurd hs (by simp [respStatus, errResp])
  · rename_i h1
    exact ⟨by simpa using h1, ingestSummary_success_flags env data prices cid ci _ hs⟩

theorem ensureCardAndIngest_success_flags (env : StoreEnv) (data : ScraperData)
    (prices : List ℚ) (q : String) (db : DB)
    (hs : respStatus (ensureCardAndIngest env data prices q db).1.body
      = some "success") :
    env.cardCheckFails = false ∧ env.priceInsertFails = false ∧
      env.cardPriceCheckFails = false ∧ env.cardPriceWriteFails = false ∧
      (db.cards.find? (fun c => c.name == q) = none →
        env.cardInsertConflict = false) := by
  unfold ensureCardAndIngest at hs
  split at hs
  · exact absurd hs (by simp [respStatus, errResp])
  · rename_i h1
    split at hs
    · rename_i c hc
      have h2 := ingestEntries_success_flags env data prices c.id false db hs
      refine ⟨by simpa using h1, h2.1, h2.2.1, h2.2.2, ?_⟩
      intro hnone
      rw [hc] at hnone
      cases hnone
    · rename_i hc
      split at hs
      · exact absurd hs (by simp [respStatus, errResp])
      · rename_i h3
        have h2 := ingestEntries_success_flags env data prices db.nextId true _ hs
        exact ⟨by simpa using h1, h2.1, h2.2.1, h2.2.2,
          fun _ => by simpa using h3⟩

/-- C10 amended: for every request other than the OPTIONS preflight, the
handler returns exactly one JSON response whose status field is 'success'
or 'error'; moreover a 'success' status occurs only on the fully
successful path, so every modelled failure (non-POST method, unparseable
body, invalid query, missing service key, provider failure, empty price
list, store errors, duplicate-insert conflict on an absent card) is
converted into a status-'error' response rather than escaping. -/
theorem c10_non_options_total (env : StoreEnv) (scraper : ScraperResult)
    (req : Request) (db : DB) (h : req.method ≠ "OPTIONS") :
    (respStatus (serve env scraper req db).1.body = some "success" ∨
     respStatus (serve env scraper req db).1.body = some "error") ∧
    (respStatus (serve env scraper req db).1.body = some "success" →
      req.method = "POST" ∧ env.hasServiceKey = true ∧
      env.cardCheckFails = false ∧ env.priceInsertFails = false ∧
      env.cardPriceCheckFails = false ∧ env.cardPriceWriteFails = false ∧
      ∃ body q data ps,
        req.body = some body ∧ queryValid body.query = some q ∧
        scraper = .ok data ∧ data.prices = some ps ∧ ps ≠ [] ∧
        (db.cards.find? (fun c => c.name == q) = none →
          env.cardInsertConflict = false)) := by
  constructor
  · unfold serve
    rw [if_neg h]
    split
    · exact Or.inr rfl
    · split
      · exact Or.inr rfl
      · split
        · exact Or.inr rfl
        · split
          · exact Or.inr rfl
          · split
            · exact Or.inr rfl
            · split
              · exact Or.inr rfl
              · split
                · exact Or.inr rfl
                · exact ensureCardAndIngest_status ..
  · intro hs
    unfold serve at hs
    rw [if_neg h] at hs
    split at hs
    · exact absurd hs (by simp [respStatus, errResp])
    · rename_i hpost
      split at hs
      · exact absurd hs (by simp [respStatus, errResp])
      · rename_i body hbody
        split at hs
        · exact absurd hs (by simp [respStatus, errResp])
        · rename_i q hq
          split at hs
          · exact absurd hs (by simp [respStatus, errResp])
          · rename_i hkey
            split at hs
            · exact absurd hs (by simp [respStatus, errResp])
            · rename_i data
              split at hs
              · exact absurd hs (by simp [respStatus, errResp])
              · rename_i ps hps
                split at hs
                · exact absurd hs (by simp [respStatus, errResp])
                · rename_i hne
                  have hca := ensureCardAndIngest_success_flags env data ps q db hs
                  exact ⟨not_not.mp hpost, by simpa using hkey,
                    hca.1, hca.2.1, hca.2.2.1, hca.2.2.2.1,
                    body, q, data, ps, hbody, hq, rfl, hps,
                    by simpa [List.isEmpty_iff] using hne, hca.2.2.2.2⟩

/-- C10 witness: the amended theorem applied to a GET request (which is
answered with a status-'error' JSON response). -/
theorem c10_non_options_total_witness :
    ("GET" : String) ≠ "OPTIONS" ∧
    ((respStatus (serve envOK scrA ⟨"GET", none⟩ db0).1.body = some "success" ∨
      respStatus (serve envOK scrA ⟨"GET", none⟩ db0).1.body = some "error") ∧
     (respStatus (serve envOK scrA ⟨"GET", none⟩ db0).1.body = some "success" →
      ("GET" : String) = "POST" ∧ envOK.hasServiceKey = true ∧
      envOK.cardCheckFails = false ∧ envOK.priceInsertFails = false ∧
      envOK.cardPriceCheckFails = false ∧ envOK.cardPriceWriteFails = false ∧
      ∃ body q data ps,
        (none : Option RequestBody) = some body ∧
        queryValid body.query = some q ∧
        scrA = .ok data ∧ data.prices = some ps ∧ ps ≠ [] ∧
        (db0.cards.find? (fun c => c.name == q) = none →
          envOK.cardInsertConflict = false))) :=
  ⟨by decide, c10_non_options_total envOK scrA ⟨"GET", none⟩ db0 (by decide)⟩
